import Mathlib

/-
  Verification of the playback engine of the ThorVG web lottie player.

  The definitions below are a shallow embedding of the TypeScript sources
  `src/lottie-player.ts` and `src/worker/lottie-worker.ts` (plus the
  worker-side player `lottie-worker-player`): JavaScript numbers are
  modelled as rationals, enums as inductive types, DOM event dispatch as
  an explicit list of emitted events, and the opaque WASM engine calls
  (`_TVG.duration()`, `_TVG.totalFrame()`, `_TVG.frame(..)`, module
  `init()` outcomes, fetch results) as explicit oracle parameters.
-/

set_option linter.unusedVariables false
set_option synthInstance.maxSize 400
set_option maxHeartbeats 1000000

namespace ThorVG

/-- Renderer backends (lottie-player.ts `enum Renderer`: sw, wg, gl). -/
inductive Renderer
  | SW
  | WG
  | GL
deriving DecidableEq, Repr, Fintype

/-- Module initialization status (lottie-player.ts `enum InitStatus`). -/
inductive InitStatus
  | IDLE
  | FAILED
  | REQUESTED
  | INITIALIZED
deriving DecidableEq, Repr, Fintype

/-- File types the player can load (lottie-player.ts `enum FileType`). -/
inductive FileType
  | JSON
  | LOT
  | JPG
  | PNG
  | SVG
deriving DecidableEq, Repr, Fintype

/-- Player lifecycle states (lottie-player.ts `enum PlayerState`). -/
inductive PlayerState
  | Destroyed
  | Error
  | Loading
  | Paused
  | Playing
  | Stopped
  | Frozen
deriving DecidableEq, Repr, Fintype

/-- Play modes (lottie-player.ts `enum PlayMode`). -/
inductive PlayMode
  | Bounce
  | Normal
deriving DecidableEq, Repr, Fintype

/-- Events dispatched by the player (lottie-player.ts `enum PlayerEvent`).
`Frame` carries the `detail.frame` value, `RendererFallback` carries the
`detail.requestedRenderer` and `detail.fallbackRenderer` values of the
dispatched `CustomEvent`. -/
inductive PlayerEvent
  | Complete
  | Destroyed
  | Error
  | Frame (frame : ℚ)
  | Freeze
  | Load
  | Loop
  | Pause
  | Play
  | Ready
  | Stop
  | RendererFallback (requestedRenderer fallbackRenderer : Renderer)
deriving DecidableEq, Repr

/-- Shallow embedding of `_initModule` (lottie-player.ts:222-252).
For a non-WebGPU engine the function returns at once and leaves the shared
`_initStatus` untouched.  For WebGPU it returns immediately when the status
is already `INITIALIZED`, and otherwise runs `_module.init()` until the
engine answers 0 (initialized) or 1 (failed); `wgOk` is the oracle for that
eventual answer (the retry-on-2 inner loop and the wait-while-`REQUESTED`
join of a concurrent caller are collapsed into this single sequential
outcome, which is what a lone caller observes). -/
def initModule (wgOk : Bool) (engine : Renderer) (st : InitStatus) : InitStatus :=
  if engine ≠ Renderer.WG then st
  else if st = InitStatus.INITIALIZED then st
  else if wgOk then InitStatus.INITIALIZED else InitStatus.FAILED

/-- Next tier of the fallback order used by `LottiePlayer._init`
(WebGPU falls back to WebGL, WebGL falls back to Software). -/
def lowerTier (r : Renderer) : Renderer :=
  if r = Renderer.WG then Renderer.GL else Renderer.SW

/-- Result of the renderer bring-up portion of `LottiePlayer._init`:
the engine finally handed to `new _module.TvgLottieAnimation(engine, ..)`,
the final shared `_initStatus`, the events dispatched on the element, and
whether initialization ended in the fatal error branch. -/
structure InitResult where
  engine : Renderer
  status : InitStatus
  events : List PlayerEvent
  errored : Bool
deriving DecidableEq, Repr

/-- Shallow embedding of the renderer bring-up with automatic fallback in
`LottiePlayer._init` (lottie-player.ts:409-466).  `req` is
`this.renderConfig?.renderer` (`none` when absent, defaulted to `sw` by
`|| Renderer.SW`), `st0` the shared `_initStatus` at entry, `wgOk` the
oracle for the WebGPU module-init outcome. -/
def initRun (wgOk : Bool) (st0 : InitStatus) (req : Option Renderer) : InitResult :=
  let engine0 := req.getD Renderer.SW
  let originalEngine := engine0
  let st1 := initModule wgOk engine0 st0
  let r1 : Renderer × InitStatus × Bool :=
    if st1 ≠ InitStatus.FAILED then (engine0, st1, true)
    else if engine0 = Renderer.WG then
      let st2 := initModule wgOk Renderer.GL InitStatus.IDLE
      if st2 ≠ InitStatus.FAILED then (Renderer.GL, st2, true)
      else
        let st3 := initModule wgOk Renderer.SW InitStatus.IDLE
        (Renderer.SW, st3, st3 ≠ InitStatus.FAILED)
    else if engine0 = Renderer.GL then
      let st2 := initModule wgOk Renderer.SW InitStatus.IDLE
      (Renderer.SW, st2, st2 ≠ InitStatus.FAILED)
    else (engine0, st1, false)
  let engine := r1.1
  let stF := r1.2.1
  let success := r1.2.2
  if success = false then
    ⟨engine, stF, [PlayerEvent.Error], true⟩
  else if engine ≠ originalEngine then
    ⟨engine, stF, [PlayerEvent.RendererFallback originalEngine engine], false⟩
  else
    ⟨engine, stF, [], false⟩

/-- C1: if the requested renderer is WebGPU or WebGL and its bring-up fails
(the shared status reads `FAILED` after the first `_initModule` attempt)
then `_init` ends with the next tier of the fallback order active, not in
the error branch, and dispatches exactly one `rendererFallback` event whose
detail carries the requested and the fallback renderer; and whenever the
active renderer equals the requested one, no `rendererFallback` event is
dispatched at all. -/
theorem c1_renderer_fallback :
    ∀ (wgOk : Bool) (st0 : InitStatus) (req : Renderer) (reqO : Option Renderer),
      ((req = Renderer.WG ∨ req = Renderer.GL) →
        initModule wgOk req st0 = InitStatus.FAILED →
        (initRun wgOk st0 (some req)).engine = lowerTier req ∧
        (initRun wgOk st0 (some req)).errored = false ∧
        (initRun wgOk st0 (some req)).events =
          [PlayerEvent.RendererFallback req (lowerTier req)]) ∧
      ((initRun wgOk st0 reqO).engine = reqO.getD Renderer.SW →
        ∀ a b, PlayerEvent.RendererFallback a b ∉ (initRun wgOk st0 reqO).events) := by
  decide

/-- Witness for C1: WebGPU requested on an idle status with a failing
WebGPU module-init falls back to WebGL with a single fallback event. -/
theorem c1_renderer_fallback_witness :
    (initRun false InitStatus.IDLE (some Renderer.WG)).engine = lowerTier Renderer.WG ∧
    (initRun false InitStatus.IDLE (some Renderer.WG)).errored = false ∧
    (initRun false InitStatus.IDLE (some Renderer.WG)).events =
      [PlayerEvent.RendererFallback Renderer.WG (lowerTier Renderer.WG)] :=
  (c1_renderer_fallback false InitStatus.IDLE Renderer.WG (some Renderer.WG)).1
    (Or.inl rfl) (by decide)

/-- Per-player mutable state of `LottiePlayer` as far as the playback
engine reads or writes it: the `@property` fields `currentState`,
`currentFrame`, `totalFrame`, `speed`, `direction`, `loop`, `count`,
`mode`, `intermission`, and the private fields `_beginTime`, `_counter`,
`_observable`, plus `fileType`.  `count` is `number | undefined`
(`none` models `undefined`). -/
structure PlayerSt where
  currentState : PlayerState
  currentFrame : ℚ
  totalFrame : ℚ
  speed : ℚ
  direction : ℤ
  loop : Bool
  count : Option ℚ
  mode : PlayMode
  intermission : ℚ
  beginTime : ℚ
  counter : ℚ
  observable : Bool
  fileType : FileType
deriving DecidableEq, Repr

/-- Oracles for a single `_update` tick: the engine answers
`_TVG.duration()` and, inside the loop branch, `this.play()` reads
`_TVG.totalFrame()` (`tvgTotal`) and `Date.now()/1000` again (`now2`);
`tvgFrameOk` is the boolean result of `_TVG.frame(..)`; `now` is
`Date.now()/1000` at the start of the tick. -/
structure Env where
  duration : ℚ
  now : ℚ
  tvgTotal : ℚ
  now2 : ℚ
  tvgFrameOk : Bool
deriving DecidableEq, Repr

/-- JavaScript truthiness of the optional numeric `count` property
(`undefined` and `0` are falsy). -/
def countTruthy (c : Option ℚ) : Bool :=
  match c with
  | none => false
  | some x => decide (x ≠ 0)

/-- Numeric value of the optional `count` property (`0` for `undefined`;
only read under `countTruthy`). -/
def countVal (c : Option ℚ) : ℚ := c.getD 0

/-- The `totalCount` computed on completion in `_update`
(lottie-player.ts:622): `this.count ? this.mode === PlayMode.Bounce ?
this.count * 2 : this.count : 0`. -/
def totalCountOf (c : Option ℚ) (mode : PlayMode) : ℚ :=
  if countTruthy c then (if mode = PlayMode.Bounce then countVal c * 2 else countVal c)
  else 0

/-- Shallow embedding of `LottiePlayer.play` (lottie-player.ts:680-702).
It returns early for non-animation file types, re-reads the total frame
count from the engine, returns when it is below one, resets `_beginTime`,
and only changes the state when not already `Playing` (to `Playing` when
the element is observable, else to `Frozen`).  No event is dispatched. -/
def play (tvgTotal now : ℚ) (st : PlayerSt) : PlayerSt :=
  if st.fileType ≠ FileType.JSON ∧ st.fileType ≠ FileType.LOT then st
  else
    let st1 := { st with totalFrame := tvgTotal }
    if st1.totalFrame < 1 then st1
    else
      let st2 := { st1 with beginTime := now }
      if st2.currentState = PlayerState.Playing then st2
      else if st2.observable then { st2 with currentState := PlayerState.Playing }
      else { st2 with currentState := PlayerState.Frozen }

/-- Shallow embedding of `LottiePlayer.pause` (lottie-player.ts:708-711):
forces `Paused` and dispatches a `pause` event. -/
def pause (st : PlayerSt) : PlayerSt × List PlayerEvent :=
  ({ st with currentState := PlayerState.Paused }, [PlayerEvent.Pause])

/-- Result of one `_update` tick: the state afterwards, the events
dispatched, the duration handed to `_wait` when the intermission delay
ran (loop branch only), and the boolean the tick returns. -/
structure UpdateResult where
  st : PlayerSt
  events : List PlayerEvent
  waited : Option ℚ
  ret : Bool
deriving DecidableEq, Repr

/-- Shallow embedding of `LottiePlayer._update` (lottie-player.ts:606-648).
A non-`Playing` state returns `false` at once.  Otherwise the frame is
derived from the elapsed wall-clock time, flipped for the backward
direction, and on completion the tick either loops (bounce flip and frame
reset, counter increment for a truthy `count`, `_wait(intermission)`,
`this.play()`, return `true`) or dispatches `complete` and forces
`Stopped`; every non-looping exit dispatches a `frame` event and returns
the engine's `_TVG.frame(..)` answer. -/
def update (env : Env) (st : PlayerSt) : UpdateResult :=
  if st.currentState ≠ PlayerState.Playing then ⟨st, [], none, false⟩
  else
    let f0 : ℚ := (env.now - st.beginTime) / env.duration * st.totalFrame * st.speed
    let f1 : ℚ := if st.direction = -1 then st.totalFrame - f0 else f0
    let st1 : PlayerSt := { st with currentFrame := f1 }
    if (st.direction = 1 ∧ f1 ≥ st.totalFrame) ∨ (st.direction = -1 ∧ f1 ≤ 0) then
      if st1.loop = true ∨
          (totalCountOf st1.count st1.mode ≠ 0 ∧ st1.counter < totalCountOf st1.count st1.mode) then
        let st2 : PlayerSt :=
          if st1.mode = PlayMode.Bounce then
            let d : ℤ := if st1.direction = 1 then -1 else 1
            { st1 with direction := d, currentFrame := if d = 1 then 0 else st1.totalFrame }
          else st1
        let st3 : PlayerSt :=
          if countTruthy st2.count then { st2 with counter := st2.counter + 1 } else st2
        ⟨play env.tvgTotal env.now2 st3, [], some st1.intermission, true⟩
      else
        ⟨{ st1 with currentState := PlayerState.Stopped },
          [PlayerEvent.Complete, PlayerEvent.Frame f1], none, env.tvgFrameOk⟩
    else
      ⟨st1, [PlayerEvent.Frame f1], none, env.tvgFrameOk⟩

/-- Result of a synchronous step (`_frame`, `seek`): state, dispatched
events, and the argument of the `_TVG.frame(..)` engine call if made. -/
structure StepResult where
  st : PlayerSt
  events : List PlayerEvent
  tvgFrameArg : Option ℚ
deriving DecidableEq, Repr

/-- Shallow embedding of `LottiePlayer._frame` (lottie-player.ts:650-654):
pause, set `currentFrame`, and hand the frame to the engine. -/
def frameFn (st : PlayerSt) (curFrame : ℚ) : StepResult :=
  let p := pause st
  ⟨{ p.1 with currentFrame := curFrame }, p.2, some curFrame⟩

/-- Shallow embedding of `LottiePlayer.seek` (lottie-player.ts:740-744):
`_frame(frame)`, then `_update()` (a no-op since `_frame` just paused),
then `_render()` (no engine-state effect modelled here). -/
def seek (env : Env) (st : PlayerSt) (frame : ℚ) : StepResult :=
  let r1 := frameFn st frame
  let r2 := update env r1.st
  ⟨r2.st, r1.events ++ r2.events, r1.tvgFrameArg⟩

/-- Shallow embedding of `LottiePlayer.stop` (lottie-player.ts:717-724):
set `Stopped`, reset `currentFrame` and `_counter`, call `seek(0)` (whose
synchronous prefix runs before `stop` returns; its post-`await`
continuation never changes the state because `_frame` just paused), and
dispatch a `stop` event. -/
def stop (env : Env) (st : PlayerSt) : PlayerSt × List PlayerEvent :=
  let st1 := { st with currentState := PlayerState.Stopped, currentFrame := 0, counter := 1 }
  let r := seek env st1 0
  (r.st, r.events ++ [PlayerEvent.Stop])

/-- Shallow embedding of `LottiePlayer.freeze` (lottie-player.ts:730-733):
forces `Frozen` and dispatches a `freeze` event. -/
def freeze (st : PlayerSt) : PlayerSt × List PlayerEvent :=
  ({ st with currentState := PlayerState.Frozen }, [PlayerEvent.Freeze])

/-- Shallow embedding of `LottiePlayer._observerCallback`
(lottie-player.ts:504-517) for one intersection entry: records the
observability flag; on intersection it calls `play()` when `Frozen`; on
intersection loss while `Playing` it calls `freeze()` (which dispatches
`freeze`) and then dispatches a second `freeze` event itself. -/
def observerCallback (env : Env) (isIntersecting : Bool) (st : PlayerSt) :
    PlayerSt × List PlayerEvent :=
  let st0 := { st with observable := isIntersecting }
  if isIntersecting then
    if st0.currentState = PlayerState.Frozen then (play env.tvgTotal env.now st0, [])
    else (st0, [])
  else if st0.currentState = PlayerState.Playing then
    let f := freeze st0
    (f.1, f.2 ++ [PlayerEvent.Freeze])
  else (st0, [])

/-- Frame formula as the spec states it: `elapsed / duration * totalFrames
* speed`, replaced by `totalFrames` minus that value for the backward
direction. -/
def specFrame (now beginT duration totalF speed : ℚ) (direction : ℤ) : ℚ :=
  let f := (now - beginT) / duration * totalF * speed
  if direction = -1 then totalF - f else f

/-- Completion test as the spec states it: forward-complete when the frame
reaches `totalFrames`, backward-complete when it reaches `0`. -/
def specComplete (frame totalF : ℚ) (direction : ℤ) : Prop :=
  (direction = 1 ∧ frame ≥ totalF) ∨ (direction = -1 ∧ frame ≤ 0)

instance (frame totalF : ℚ) (direction : ℤ) : Decidable (specComplete frame totalF direction) := by
  unfold specComplete
  infer_instance

/-- Effective repeat limit as the spec states it: `repeatCount * 2` in
bounce mode, `repeatCount` otherwise, `0` when no finite count is
configured. -/
def specRepeatLimit (c : Option ℚ) (mode : PlayMode) : ℚ :=
  match c with
  | none => 0
  | some n => if n = 0 then 0 else if mode = PlayMode.Bounce then n * 2 else n

/-- The `totalCount` the code computes agrees with the spec's effective
repeat limit. -/
theorem totalCountOf_eq_specRepeatLimit (c : Option ℚ) (mode : PlayMode) :
    totalCountOf c mode = specRepeatLimit c mode := by
  cases c with
  | none => rfl
  | some n =>
    by_cases hn : n = 0 <;> cases mode <;>
      simp [totalCountOf, specRepeatLimit, countTruthy, countVal, hn]

/-- Calling `play` never changes `direction`, `currentFrame`, `counter`,
`count`, `mode`, `loop` or `intermission`. -/
theorem play_preserves (tvgTotal now : ℚ) (st : PlayerSt) :
    (play tvgTotal now st).direction = st.direction ∧
    (play tvgTotal now st).currentFrame = st.currentFrame ∧
    (play tvgTotal now st).counter = st.counter := by
  simp only [play]
  split_ifs <;> simp

/-- A non-`Playing` state makes `_update` return `false` without touching
anything (first guard of lottie-player.ts:606-609). -/
theorem update_not_playing (env : Env) (st : PlayerSt)
    (h : st.currentState ≠ PlayerState.Playing) : update env st = ⟨st, [], none, false⟩ := by
  simp [update, h]

/-- Sample tick environment: one-second ticks on a two-second animation. -/
def sampleEnv : Env :=
  { duration := 2, now := 105, tvgTotal := 10, now2 := 200, tvgFrameOk := true }

/-- Sample tick environment whose `now` lands mid-animation. -/
def sampleEnvMid : Env :=
  { duration := 2, now := 201 / 2, tvgTotal := 10, now2 := 200, tvgFrameOk := true }

/-- Sample tick environment where `now` equals the begin timestamp `play`
will install. -/
def sampleEnv2 : Env :=
  { duration := 2, now := 20, tvgTotal := 10, now2 := 20, tvgFrameOk := true }

/-- A playing looping player five seconds past its begin timestamp. -/
def samplePlaying : PlayerSt :=
  { currentState := PlayerState.Playing, currentFrame := 0, totalFrame := 10, speed := 1,
    direction := 1, loop := true, count := none, mode := PlayMode.Normal, intermission := 1,
    beginTime := 100, counter := 1, observable := true, fileType := FileType.JSON }

/-- A playing bounce-mode player with a finite repeat count of three. -/
def sampleBounce : PlayerSt :=
  { currentState := PlayerState.Playing, currentFrame := 0, totalFrame := 10, speed := 1,
    direction := 1, loop := false, count := some 3, mode := PlayMode.Bounce, intermission := 1,
    beginTime := 100, counter := 1, observable := true, fileType := FileType.JSON }

/-- A paused player ready to accept `seek` and `play`. -/
def samplePaused : PlayerSt :=
  { currentState := PlayerState.Paused, currentFrame := 0, totalFrame := 10, speed := 1,
    direction := 1, loop := false, count := none, mode := PlayMode.Normal, intermission := 1,
    beginTime := 0, counter := 1, observable := true, fileType := FileType.JSON }

/-- C2: on a tick in the `Playing` state, `_update` computes the frame as
`(now - beginTimestamp) / duration * totalFrame * speed`, replaced by
`totalFrame` minus that value for the backward direction, and takes the
completion branch (loop wait or `complete` event) exactly when that frame
is `≥ totalFrame` going forward or `≤ 0` going backward; on a
non-completing tick the computed frame is stored in `currentFrame` and
dispatched in the `frame` event. -/
theorem c2_tick_frame_formula :
    ∀ (env : Env) (st : PlayerSt),
      st.currentState = PlayerState.Playing →
      (specComplete (specFrame env.now st.beginTime env.duration st.totalFrame st.speed st.direction)
          st.totalFrame st.direction ↔
        ((update env st).waited.isSome = true ∨ PlayerEvent.Complete ∈ (update env st).events)) ∧
      (¬ specComplete (specFrame env.now st.beginTime env.duration st.totalFrame st.speed st.direction)
          st.totalFrame st.direction →
        (update env st).st.currentFrame =
          specFrame env.now st.beginTime env.duration st.totalFrame st.speed st.direction ∧
        (update env st).events =
          [PlayerEvent.Frame
            (specFrame env.now st.beginTime env.duration st.totalFrame st.speed st.direction)]) := by
  intro env st h
  have hne : ¬ st.currentState ≠ PlayerState.Playing := by simp [h]
  simp only [update, if_neg hne, specFrame, specComplete]
  split_ifs with h1 h2 <;> simp_all

/-- Witness for C2: a mid-animation tick of the sample player stores and
reports frame `5/2`. -/
theorem c2_tick_frame_formula_witness :
    (update sampleEnvMid samplePlaying).st.currentFrame = 5 / 2 ∧
    (update sampleEnvMid samplePlaying).events = [PlayerEvent.Frame (5 / 2)] := by
  have h := c2_tick_frame_formula sampleEnvMid samplePlaying rfl
  have h2 := h.2 (by norm_num [specComplete, specFrame, sampleEnvMid, samplePlaying])
  refine ⟨?_, ?_⟩
  · rw [h2.1]; norm_num [specFrame, sampleEnvMid, samplePlaying]
  · rw [h2.2]; norm_num [specFrame, sampleEnvMid, samplePlaying]

/-- C3: on a completing tick, the loop-versus-complete decision uses the
effective repeat limit `repeatCount * 2` in bounce mode and `repeatCount`
otherwise (`0` when no finite count is configured); when the clock loops
in bounce mode the direction is flipped and the frame reset to the
boundary matching the new direction (`0` if now-forward, `totalFrame` if
now-backward), and the repeat counter, incremented after that flip and
reset, grows by one exactly when a finite (truthy) `count` is
configured. -/
theorem c3_repeat_limit_bounce :
    ∀ (env : Env) (st : PlayerSt),
      st.currentState = PlayerState.Playing →
      specComplete (specFrame env.now st.beginTime env.duration st.totalFrame st.speed st.direction)
        st.totalFrame st.direction →
      (((update env st).waited.isSome = true) ↔
        (st.loop = true ∨ (specRepeatLimit st.count st.mode ≠ 0 ∧
          st.counter < specRepeatLimit st.count st.mode))) ∧
      ((st.loop = true ∨ (specRepeatLimit st.count st.mode ≠ 0 ∧
          st.counter < specRepeatLimit st.count st.mode)) →
        ((update env st).st.counter = st.counter + (if countTruthy st.count then 1 else 0)) ∧
        (st.mode = PlayMode.Bounce →
          (update env st).st.direction = (if st.direction = 1 then (-1 : ℤ) else 1) ∧
          (update env st).st.currentFrame =
            (if (if st.direction = 1 then (-1 : ℤ) else 1) = 1 then (0 : ℚ)
             else st.totalFrame))) := by
  intro env st h hC
  have hne : ¬ st.currentState ≠ PlayerState.Playing := by simp [h]
  have hCr : (st.direction = 1 ∧
      (if st.direction = -1 then
        st.totalFrame - (env.now - st.beginTime) / env.duration * st.totalFrame * st.speed
       else (env.now - st.beginTime) / env.duration * st.totalFrame * st.speed) ≥ st.totalFrame) ∨
      (st.direction = -1 ∧
      (if st.direction = -1 then
        st.totalFrame - (env.now - st.beginTime) / env.duration * st.totalFrame * st.speed
       else (env.now - st.beginTime) / env.duration * st.totalFrame * st.speed) ≤ 0) := by
    simpa [specComplete, specFrame] using hC
  simp only [update, if_neg hne, if_pos hCr, totalCountOf_eq_specRepeatLimit]
  split_ifs with h2 h3 h3 <;>
    simp_all [play_preserves, countTruthy, specRepeatLimit]

/-- Witness for C3: the sample bounce player (count three, first leg
completing forward) flips to backward, resets to the far boundary, and
increments its counter to two. -/
theorem c3_repeat_limit_bounce_witness :
    (update sampleEnv sampleBounce).st.direction = -1 ∧
    (update sampleEnv sampleBounce).st.currentFrame = 10 ∧
    (update sampleEnv sampleBounce).st.counter = 2 ∧
    (update sampleEnv sampleBounce).waited.isSome = true := by
  have h := c3_repeat_limit_bounce sampleEnv sampleBounce rfl
    (by norm_num [specComplete, specFrame, sampleEnv, sampleBounce])
  have hcond : sampleBounce.loop = true ∨
      (specRepeatLimit sampleBounce.count sampleBounce.mode ≠ 0 ∧
        sampleBounce.counter < specRepeatLimit sampleBounce.count sampleBounce.mode) :=
    Or.inr (by norm_num [specRepeatLimit, sampleBounce])
  have h2 := h.2 hcond
  have h3 := h2.2 rfl
  refine ⟨?_, ?_, ?_, h.1.mpr hcond⟩
  · rw [h3.1]; norm_num [sampleBounce]
  · rw [h3.2]; norm_num [sampleBounce]
  · rw [h2.1]; norm_num [sampleBounce, countTruthy]

/-- C4 amended: `seek(f)` forces `Paused` from every prior state, stores
`f`, and performs the single-step engine render at `f`; but a subsequent
`play()` resets `_beginTime` to the current time, so the next tick derives
its frame from the elapsed time since `play()` — `0` going forward —
instead of resuming from `f`. -/
theorem c4_seek_forces_paused_play_restarts :
    ∀ (env env2 : Env) (st : PlayerSt) (f T n2 : ℚ),
      ((seek env st f).st = { st with currentState := PlayerState.Paused, currentFrame := f } ∧
       (seek env st f).events = [PlayerEvent.Pause] ∧
       (seek env st f).tvgFrameArg = some f) ∧
      (st.fileType = FileType.JSON → st.direction = 1 → st.observable = true →
        1 ≤ T → env2.now = n2 → 0 < env2.duration →
        (update env2 (play T n2 (seek env st f).st)).st.currentFrame = 0) := by
  intro env env2 st f T n2
  have hseek : (seek env st f).st = { st with currentState := PlayerState.Paused, currentFrame := f } := by
    simp [seek, frameFn, pause, update_not_playing]
  refine ⟨⟨hseek, ?_, rfl⟩, ?_⟩
  · simp [seek, frameFn, pause, update_not_playing]
  · intro hft hdir hobs hT hnow hdur
    rw [hseek]
    have hTpos : ¬ (T : ℚ) < 1 := not_lt.mpr hT
    have hplay : play T n2 { st with currentState := PlayerState.Paused, currentFrame := f } =
        { st with
          currentState := PlayerState.Playing
          currentFrame := f
          totalFrame := T
          beginTime := n2 } := by
      simp [play, hft, hTpos, hobs]
    rw [hplay]
    have hnotC : ¬ ((0 : ℚ) ≥ T) := by linarith
    simp [update, hdir, hnow, hnotC]

/-- Witness for C4's amended statement at concrete inputs: seeking the
sample paused player to frame five pauses at five, and the tick right
after `play()` computes frame zero. -/
theorem c4_seek_forces_paused_play_restarts_witness :
    (seek sampleEnv samplePaused 5).st =
      { samplePaused with currentState := PlayerState.Paused, currentFrame := 5 } ∧
    (update sampleEnv2 (play 10 sampleEnv2.now (seek sampleEnv samplePaused 5).st)).st.currentFrame
      = 0 := by
  have h := c4_seek_forces_paused_play_restarts sampleEnv sampleEnv2 samplePaused 5 10 sampleEnv2.now
  exact ⟨h.1.1, h.2 rfl rfl rfl (by norm_num) rfl (by norm_num [sampleEnv2])⟩

/-- Counterexample for C4 as stated: after `seek(5)` and `play()`, the
first tick computes frame `0`, not the sought frame `5` — playback does
not resume from the seek target. -/
theorem c4_play_restarts_counterexample :
    (update sampleEnv2 (play 10 20 (seek sampleEnv samplePaused 5).st)).st.currentFrame = 0 ∧
    ((0 : ℚ) ≠ 5) := by
  have h1 : (seek sampleEnv samplePaused 5).st =
      { samplePaused with currentState := PlayerState.Paused, currentFrame := 5 } := by
    simp [seek, frameFn, pause, update_not_playing]
  have h2 : play 10 20 { samplePaused with currentState := PlayerState.Paused, currentFrame := 5 } =
      { samplePaused with
        currentState := PlayerState.Playing
        currentFrame := 5
        totalFrame := 10
        beginTime := 20 } := by
    norm_num [play, samplePaused]
  rw [h1, h2]
  refine ⟨?_, by norm_num⟩
  norm_num [update, samplePaused, sampleEnv2]

/-- C5 evaluation: when `stop()` returns, `currentFrame` is `0` and the
repeat counter is reset, but the player state reads `Paused`, not
`Stopped` — `stop()` assigns `Stopped` and dispatches a `stop` event, yet
the embedded `seek(0)` runs `_frame` → `pause()` synchronously, which
overwrites the state with `Paused` (and dispatches a `pause` event)
before `stop()` returns. -/
theorem c5_stop_leaves_paused :
    (stop sampleEnv samplePlaying).1.currentState = PlayerState.Paused ∧
    (stop sampleEnv samplePlaying).1.currentFrame = 0 ∧
    (stop sampleEnv samplePlaying).1.counter = 1 ∧
    (stop sampleEnv samplePlaying).2 = [PlayerEvent.Pause, PlayerEvent.Stop] := by
  decide

/-- C6 amended: on a tick where the clock loops rather than completes,
`_update` waits the intermission delay and then resumes via `play()`,
returning `true`; it dispatches no event at all on that path — in
particular no `loop` notification (`PlayerEvent.Loop` is declared but
never dispatched anywhere in the player). -/
theorem c6_loop_wait_no_event :
    ∀ (env : Env) (st : PlayerSt),
      st.currentState = PlayerState.Playing →
      specComplete (specFrame env.now st.beginTime env.duration st.totalFrame st.speed st.direction)
        st.totalFrame st.direction →
      (st.loop = true ∨ (specRepeatLimit st.count st.mode ≠ 0 ∧
        st.counter < specRepeatLimit st.count st.mode)) →
      (update env st).waited = some st.intermission ∧
      (update env st).events = [] ∧
      (update env st).ret = true := by
  intro env st h hC hL
  have hne : ¬ st.currentState ≠ PlayerState.Playing := by simp [h]
  have hCr : (st.direction = 1 ∧
      (if st.direction = -1 then
        st.totalFrame - (env.now - st.beginTime) / env.duration * st.totalFrame * st.speed
       else (env.now - st.beginTime) / env.duration * st.totalFrame * st.speed) ≥ st.totalFrame) ∨
      (st.direction = -1 ∧
      (if st.direction = -1 then
        st.totalFrame - (env.now - st.beginTime) / env.duration * st.totalFrame * st.speed
       else (env.now - st.beginTime) / env.duration * st.totalFrame * st.speed) ≤ 0) := by
    simpa [specComplete, specFrame] using hC
  simp only [update, if_neg hne, if_pos hCr, totalCountOf_eq_specRepeatLimit]
  split_ifs with h2 <;> simp_all

/-- Witness for C6's amended statement: the sample looping player waits
its intermission of one and emits nothing on the loop path. -/
theorem c6_loop_wait_no_event_witness :
    (update sampleEnv samplePlaying).waited = some samplePlaying.intermission ∧
    (update sampleEnv samplePlaying).events = [] ∧
    (update sampleEnv samplePlaying).ret = true :=
  c6_loop_wait_no_event sampleEnv samplePlaying rfl
    (by norm_num [specComplete, specFrame, sampleEnv, samplePlaying]) (Or.inl rfl)

/-- Counterexample for C6 as stated: on a looping tick the intermission
wait happens but no `loop` event is in the dispatched events. -/
theorem c6_no_loop_event_counterexample :
    (update sampleEnv samplePlaying).waited = some 1 ∧
    PlayerEvent.Loop ∉ (update sampleEnv samplePlaying).events := by
  norm_num [update, play, totalCountOf, countTruthy, countVal, sampleEnv, samplePlaying]

/-- C7 amended: losing intersection while `Playing` forces `Frozen` and
dispatches exactly two `freeze` events (one from `freeze()` itself, one
from the observer callback); losing intersection in any other state only
records the observability flag, leaves the state unchanged and dispatches
nothing. -/
theorem c7_visibility_loss :
    ∀ (env : Env) (st : PlayerSt),
      (st.currentState = PlayerState.Playing →
        observerCallback env false st =
          ({ st with observable := false, currentState := PlayerState.Frozen },
           [PlayerEvent.Freeze, PlayerEvent.Freeze])) ∧
      (st.currentState ≠ PlayerState.Playing →
        observerCallback env false st = ({ st with observable := false }, [])) := by
  intro env st
  constructor
  · intro h
    simp [observerCallback, freeze, h]
  · intro h
    simp [observerCallback, freeze, h]

/-- Witness for C7's amended statement: the sample playing player freezes
with two `freeze` events, the sample paused player is untouched. -/
theorem c7_visibility_loss_witness :
    observerCallback sampleEnv false samplePlaying =
      ({ samplePlaying with observable := false, currentState := PlayerState.Frozen },
       [PlayerEvent.Freeze, PlayerEvent.Freeze]) ∧
    observerCallback sampleEnv false samplePaused =
      ({ samplePaused with observable := false }, []) :=
  ⟨(c7_visibility_loss sampleEnv samplePlaying).1 rfl,
   (c7_visibility_loss sampleEnv samplePaused).2 (by decide)⟩

/-- Counterexample for C7 as stated: intersection loss while `Playing`
dispatches two `freeze` events, not exactly one. -/
theorem c7_double_freeze_counterexample :
    (observerCallback sampleEnv false samplePlaying).2 =
      [PlayerEvent.Freeze, PlayerEvent.Freeze] ∧
    (observerCallback sampleEnv false samplePlaying).2.length ≠ 1 := by
  decide

/-- External collaborators of `_parseJSON` / `_parseLottieFromURL`
(lottie-player.ts:106-138), abstracted over a type `J` of parsed JSON
values: `parse` is `JSON.parse` (`none` models a throw), `stringify` is
`JSON.stringify`, `fetchLottie` is `_parseLottieFromURL` (`none` models
any of its failure modes: invalid URL, failed fetch, non-JSON body). -/
structure JsonEnv (J : Type) where
  parse : String → Option J
  stringify : J → String
  fetchLottie : String → Option J

/-- Value of the `data` variable after `_parseJSON`: the raw parsed value
on the inline path (the code assigns `JSON.parse`'s result, of any type,
back into `data`), or the re-serialized text of a fetched document. -/
inductive JsonData (J : Type)
  | parsed (v : J)
  | text (s : String)
deriving DecidableEq

/-- Shallow embedding of `_parseJSON` (lottie-player.ts:129-138): try
`JSON.parse(data)`; only on a parse throw treat the string as a URL,
fetch it and stringify the body; rethrow when the fetch fails.  The
boolean records whether a fetch happened. -/
def parseJSONf {J : Type} (env : JsonEnv J) (data : String) :
    Except Unit (JsonData J × Bool) :=
  match env.parse data with
  | some v => Except.ok (JsonData.parsed v, false)
  | none =>
    match env.fetchLottie data with
    | some j => Except.ok (JsonData.text (env.stringify j), true)
    | none => Except.error ()

/-- The `src` argument of `_parseSrc`: a string, a structured object, or
an `ArrayBuffer` of raw bytes. -/
inductive SrcValue (J : Type)
  | str (s : String)
  | obj (o : J)
  | buffer (bytes : List Nat)

/-- The byte payload `_parseSrc` produces (lottie-player.ts:140-163):
raw bytes, the encoded text, or the encoder applied to the raw parsed
value coming out of `_parseJSON`'s inline path. -/
inductive Payload (J : Type)
  | bytes (b : List Nat)
  | encoded (s : String)
  | encodedParsed (v : J)
deriving DecidableEq

/-- Shallow embedding of `_parseSrc` (lottie-player.ts:140-163):
`ArrayBuffer`s pass through, objects are stringified and encoded; a
string is routed through `_parseJSON` for the animation-data file types
(`json`, `lot`) and through `_parseImageFromURL` (`fetchImage`, `none`
models a fetch failure) otherwise.  The boolean records whether a network
fetch happened. -/
def parseSrc {J : Type} (env : JsonEnv J) (fetchImage : String → Option (List Nat))
    (src : SrcValue J) (fileType : FileType) : Except Unit (Payload J × Bool) :=
  match src with
  | SrcValue.buffer b => Except.ok (Payload.bytes b, false)
  | SrcValue.obj o => Except.ok (Payload.encoded (env.stringify o), false)
  | SrcValue.str s =>
    if fileType = FileType.JSON ∨ fileType = FileType.LOT then
      match parseJSONf env s with
      | Except.ok (JsonData.parsed v, fetched) => Except.ok (Payload.encodedParsed v, fetched)
      | Except.ok (JsonData.text t, fetched) => Except.ok (Payload.encoded t, fetched)
      | Except.error e => Except.error e
    else
      match fetchImage s with
      | some b => Except.ok (Payload.bytes b, true)
      | none => Except.error ()

/-- C8: for a string source of an animation-data file type (`json` or
`lot`), a string that `JSON.parse` accepts is used as inline data with no
fetch performed — regardless of whether it could also be a URL — and only
when parsing fails is the string treated as a URL whose fetched body
becomes the payload. -/
theorem c8_inline_first_fetch_fallback :
    ∀ (J : Type) (env : JsonEnv J) (fetchImage : String → Option (List Nat))
      (ft : FileType) (s : String),
      (ft = FileType.JSON ∨ ft = FileType.LOT) →
      (∀ v, env.parse s = some v →
        parseSrc env fetchImage (SrcValue.str s) ft =
          Except.ok (Payload.encodedParsed v, false)) ∧
      (∀ j, env.parse s = none → env.fetchLottie s = some j →
        parseSrc env fetchImage (SrcValue.str s) ft =
          Except.ok (Payload.encoded (env.stringify j), true)) := by
  intro J env fetchImage ft s hft
  constructor
  · intro v hv
    simp [parseSrc, parseJSONf, hft, hv]
  · intro j hp hj
    simp [parseSrc, parseJSONf, hft, hp, hj]

/-- Concrete JSON environment for the C8 witness: only the string "42"
parses, every fetch returns the document `7`. -/
def sampleJsonEnv : JsonEnv Nat :=
  { parse := fun s => if s = "42" then some 42 else none
    stringify := fun n => toString n
    fetchLottie := fun _ => some 7 }

/-- Concrete image fetcher for the C8 witness. -/
def sampleFetchImage : String → Option (List Nat) := fun _ => some []

/-- Witness for C8: the literal "42" is taken inline without a fetch,
while a non-parsing string is fetched and its body "7" becomes the
payload. -/
theorem c8_inline_first_fetch_fallback_witness :
    parseSrc sampleJsonEnv sampleFetchImage (SrcValue.str "42") FileType.JSON =
      Except.ok (Payload.encodedParsed 42, false) ∧
    parseSrc sampleJsonEnv sampleFetchImage (SrcValue.str "u") FileType.JSON =
      Except.ok (Payload.encoded "7", true) := by
  have h := c8_inline_first_fetch_fallback Nat sampleJsonEnv sampleFetchImage FileType.JSON "42"
    (Or.inl rfl)
  have h2 := c8_inline_first_fetch_fallback Nat sampleJsonEnv sampleFetchImage FileType.JSON "u"
    (Or.inl rfl)
  exact ⟨h.1 42 (by simp [sampleJsonEnv]), h2.2 7 (by simp [sampleJsonEnv]) rfl⟩

/-- Responses the worker posts back to the main thread
(worker/message-types, as consumed by `lottie-worker.ts`): `READY`,
`LOADED{totalFrame, size}`, `FRAME{frameNumber, imageData?,
useOffscreenCanvas}`, `ERROR`, `COMPLETE`. -/
inductive WorkerResponse
  | READY
  | LOADED (totalFrame : ℚ)
  | FRAME (frameNumber : ℤ) (hasImageData : Bool) (useOffscreenCanvas : Bool)
  | ERROR
  | COMPLETE
deriving DecidableEq, Repr

/-- Result of the worker's `initializeWorker`: the engine handed to
`new _module.TvgLottieAnimation(engine, ..)` (`none` when that point is
never reached), the `_isInitialized` flag, and the responses posted. -/
structure WInitResult where
  engineUsed : Option Renderer
  isInitialized : Bool
  responses : List WorkerResponse
deriving DecidableEq, Repr

/-- Shallow embedding of the worker's `_initModule`
(lottie-worker.ts:53-63): a no-op for every engine except WebGPU, for
which it sets the shared status to `FAILED` and throws.  The boolean is
the throw flag. -/
def workerInitModule (engine : Renderer) (st : InitStatus) : InitStatus × Bool :=
  if engine ≠ Renderer.WG then (st, false)
  else (InitStatus.FAILED, true)

/-- Shallow embedding of `initializeWorker` (lottie-worker.ts:66-140) on
an `INIT` command: after module load (`moduleLoadOk` oracle) the engine
is hard-coded to `Renderer.SW`, ignoring the `renderConfig` argument;
`_initModule` runs, the status is checked, the engine instance is created
(`tvgCreateOk` oracle covering both the empty-string and `null` selector
attempts), and `READY` or `ERROR` is posted. -/
def initializeWorker (moduleLoadOk tvgCreateOk : Bool) (renderConfig : Option Renderer)
    (st0 : InitStatus) : WInitResult :=
  if moduleLoadOk = false then ⟨none, false, [WorkerResponse.ERROR]⟩
  else
    let engine := Renderer.SW
    let r := workerInitModule engine st0
    if r.2 = true then ⟨none, false, [WorkerResponse.ERROR]⟩
    else if r.1 = InitStatus.FAILED then ⟨none, false, [WorkerResponse.ERROR]⟩
    else if tvgCreateOk = false then ⟨none, false, [WorkerResponse.ERROR]⟩
    else ⟨some engine, true, [WorkerResponse.READY]⟩

/-- C9: for every `INIT` command — whatever renderer the `renderConfig`
requests and whatever the oracles do — the worker only ever hands the
Software renderer to its engine instance (never WebGL or WebGPU), and its
result does not depend on `renderConfig` at all. -/
theorem c9_worker_software_only :
    ∀ (moduleLoadOk tvgCreateOk : Bool) (renderConfig : Option Renderer) (st0 : InitStatus),
      ((initializeWorker moduleLoadOk tvgCreateOk renderConfig st0).engineUsed = none ∨
       (initializeWorker moduleLoadOk tvgCreateOk renderConfig st0).engineUsed =
         some Renderer.SW) ∧
      (∀ renderConfig2,
        initializeWorker moduleLoadOk tvgCreateOk renderConfig st0 =
          initializeWorker moduleLoadOk tvgCreateOk renderConfig2 st0) := by
  decide

/-- Worker-global animation state read by the interval callback of
`startWorkerAnimationLoop` and by `renderFrame`
(lottie-worker.ts:18-29): the playback flag, start timestamp
(milliseconds), speed, total frames, duration, plus the guard flags for
`_isInitialized`, `_TVG`, `_currentCanvasInfo`, and the OffscreenCanvas
sub-mode (`_useOffscreenCanvas`, `_offscreenCanvas`,
`_offscreenContext`). -/
structure WorkerSt where
  isPlaying : Bool
  animationStartTime : ℚ
  animationSpeed : ℚ
  totalFrames : ℚ
  duration : ℚ
  isInitialized : Bool
  hasTVG : Bool
  hasCanvasInfo : Bool
  useOffscreenCanvas : Bool
  hasOffscreenCanvas : Bool
  hasOffscreenCtx : Bool
deriving DecidableEq, Repr

/-- JavaScript number truncation toward zero, on rationals. -/
def jsTrunc (q : ℚ) : ℤ := if q < 0 then -⌊-q⌋ else ⌊q⌋

/-- JavaScript remainder `a % b` (sign of the dividend, truncated
division), on rationals. -/
def jsMod (a b : ℚ) : ℚ := a - b * (jsTrunc (a / b) : ℚ)

/-- Shallow embedding of `renderFrame` (lottie-worker.ts:262-348): the
early guard, a `throwOcc` oracle for any engine-call exception (caught
and posted as `ERROR`), then either the OffscreenCanvas path (posts
`FRAME` without image data whenever `_TVG.update()` succeeded) or the
fallback path (posts `FRAME` with the image data only when the rendered
buffer is non-empty). -/
def renderFrame (w : WorkerSt) (throwOcc updateOk bufLenPos : Bool) (frameNumber : ℤ) :
    List WorkerResponse :=
  if w.isInitialized = false ∨ w.hasTVG = false then []
  else if throwOcc then [WorkerResponse.ERROR]
  else if w.useOffscreenCanvas ∧ w.hasOffscreenCanvas ∧ w.hasOffscreenCtx then
    if updateOk = false then []
    else [WorkerResponse.FRAME frameNumber false true]
  else if w.hasCanvasInfo = false then []
  else if updateOk = false then []
  else if bufLenPos then [WorkerResponse.FRAME frameNumber true false]
  else []

/-- Shallow embedding of one interval callback of
`startWorkerAnimationLoop` (lottie-worker.ts:222-251): guard, frame from
elapsed milliseconds, wrap modulo `_totalFrames` with a start-time reset
when the frame reaches `_totalFrames`, `Math.floor`, then
`renderFrame`. -/
def workerTick (w : WorkerSt) (now : ℚ) (throwOcc updateOk bufLenPos : Bool) :
    WorkerSt × List WorkerResponse :=
  if w.isPlaying = false ∨ w.isInitialized = false ∨ w.hasTVG = false ∨
      w.hasCanvasInfo = false then
    (w, [])
  else
    let elapsed : ℚ := (now - w.animationStartTime) / 1000 * w.animationSpeed
    let frame0 : ℚ := elapsed / w.duration * w.totalFrames
    let p : ℚ × WorkerSt :=
      if frame0 ≥ w.totalFrames then
        (jsMod frame0 w.totalFrames, { w with animationStartTime := now })
      else (frame0, w)
    (p.2, renderFrame p.2 throwOcc updateOk bufLenPos ⌊p.1⌋)

/-- Shallow embedding of the state transition of
`LottieWorkerPlayer._handleWorkerMessage` (lottie-worker-player): `READY`
and `FRAME` leave `currentState` alone, `LOADED` sets `stopped` (then
`play()` when `autoPlay` and at least one frame), `ERROR` sets `error`,
`COMPLETE` sets `stopped`. -/
def handleWorkerMessage (autoPlay : Bool) (st : PlayerState) (msg : WorkerResponse) :
    PlayerState :=
  match msg with
  | WorkerResponse.READY => st
  | WorkerResponse.LOADED tf =>
    if autoPlay ∧ 1 ≤ tf then PlayerState.Playing else PlayerState.Stopped
  | WorkerResponse.FRAME _ _ _ => st
  | WorkerResponse.ERROR => PlayerState.Error
  | WorkerResponse.COMPLETE => PlayerState.Stopped

/-- C10: whenever the frame computed by the worker's animation loop
reaches `totalFrames`, the tick wraps it modulo `totalFrames` and resets
the start timestamp; the loop never stops itself (`isPlaying` is
untouched, and the worker state carries no loop/count/mode/direction
settings at all); no tick ever posts `COMPLETE`, and no response a tick
can post ever drives the delegated player's `currentState` to
`stopped`. -/
theorem c10_worker_loop_wraps_never_complete :
    ∀ (w : WorkerSt) (now : ℚ) (throwOcc updateOk bufLenPos : Bool),
      WorkerResponse.COMPLETE ∉ (workerTick w now throwOcc updateOk bufLenPos).2 ∧
      (workerTick w now throwOcc updateOk bufLenPos).1.isPlaying = w.isPlaying ∧
      (w.isPlaying = true → w.isInitialized = true → w.hasTVG = true →
        w.hasCanvasInfo = true →
        (now - w.animationStartTime) / 1000 * w.animationSpeed / w.duration * w.totalFrames ≥
          w.totalFrames →
        (workerTick w now throwOcc updateOk bufLenPos).1.animationStartTime = now ∧
        (∀ r ∈ (workerTick w now throwOcc updateOk bufLenPos).2,
          r = WorkerResponse.ERROR ∨
          ∃ hid off, r = WorkerResponse.FRAME
            (⌊jsMod ((now - w.animationStartTime) / 1000 * w.animationSpeed / w.duration *
              w.totalFrames) w.totalFrames⌋) hid off)) ∧
      (∀ (autoPlay : Bool) (s : PlayerState), s ≠ PlayerState.Stopped →
        ∀ r ∈ (workerTick w now throwOcc updateOk bufLenPos).2,
          handleWorkerMessage autoPlay s r ≠ PlayerState.Stopped) := by
  intro w now throwOcc updateOk bufLenPos
  refine ⟨?_, ?_, ?_, ?_⟩
  · simp only [workerTick, renderFrame]
    split_ifs <;> simp
  · simp only [workerTick, renderFrame]
    split_ifs <;> simp
  · intro h1 h2 h3 h4 h5
    have hguard : ¬ (w.isPlaying = false ∨ w.isInitialized = false ∨ w.hasTVG = false ∨
        w.hasCanvasInfo = false) := by simp [h1, h2, h3, h4]
    constructor
    · simp only [workerTick, if_neg hguard, if_pos h5]
    · intro r hr
      simp only [workerTick, if_neg hguard, if_pos h5, renderFrame] at hr
      split_ifs at hr <;> simp_all
  · intro autoPlay s hs r hr
    simp only [workerTick, renderFrame] at hr
    split_ifs at hr <;> simp_all [handleWorkerMessage]

/-- Concrete worker state for the C10 witness: playing, fully
initialized, OffscreenCanvas sub-mode, one-second animation of ten
frames that started twenty seconds ago. -/
def sampleWorker : WorkerSt :=
  { isPlaying := true, animationStartTime := 0, animationSpeed := 1, totalFrames := 10,
    duration := 1, isInitialized := true, hasTVG := true, hasCanvasInfo := true,
    useOffscreenCanvas := true, hasOffscreenCanvas := true, hasOffscreenCtx := true }

/-- Witness for C10: at twenty seconds the sample worker wraps and resets
its start timestamp, keeps playing, and posts no `COMPLETE`. -/
theorem c10_worker_loop_wraps_never_complete_witness :
    (workerTick sampleWorker 20000 false true true).1.animationStartTime = 20000 ∧
    (workerTick sampleWorker 20000 false true true).1.isPlaying = true ∧
    WorkerResponse.COMPLETE ∉ (workerTick sampleWorker 20000 false true true).2 := by
  have h := c10_worker_loop_wraps_never_complete sampleWorker 20000 false true true
  have h3 := h.2.2.1 rfl rfl rfl rfl (by norm_num [sampleWorker])
  exact ⟨h3.1, h.2.1.trans rfl, h.1⟩

end ThorVG
